import Mathlib

/-!
Verification of the request-mutation test-generation engine implemented in
`apitester/node/api-tester.js`.

The development shallowly embeds the engine:

* `Json` models the JavaScript values the tool manipulates (payloads are
  produced by `JSON.parse`, so objects are insertion-ordered key/value lists
  with unique keys; `Json.undef` models JavaScript `undefined`, which occurs
  in the fuzz value pool).
* `parseCurl`, `generateTestCases` and the per-category generator functions,
  `setNestedValue`, `traverseObject`, `isExpectedResult` and the result
  bookkeeping of `runTests` are translated from the source, function by
  function.  Network traffic is modelled by an oracle giving the result of
  each successive network interaction, and the randomness used by the fuzz
  generator is modelled by an oracle choosing, per pass and per path, which
  entry of the fuzz value pool (if any) replaces the value at that path.
-/

set_option maxHeartbeats 1000000

namespace ApiTester

/-- JavaScript value as manipulated by `api-tester.js`: the JSON scalars,
arrays, insertion-ordered objects, and `undefined` (which appears in the
source's fuzz value pool).  Numbers are modelled as integers; every numeric
literal occurring in the engine is an integer. -/
inductive Json where
  | null : Json
  | undef : Json
  | bool : Bool → Json
  | num : Int → Json
  | str : String → Json
  | arr : List Json → Json
  | obj : List (String × Json) → Json
deriving Repr

mutual

/-- Structural boolean equality on `Json`. -/
def Json.beq : Json → Json → Bool
  | Json.null, Json.null => true
  | Json.undef, Json.undef => true
  | Json.bool a, Json.bool b => a == b
  | Json.num a, Json.num b => a == b
  | Json.str a, Json.str b => a == b
  | Json.arr a, Json.arr b => Json.beqList a b
  | Json.obj a, Json.obj b => Json.beqFields a b
  | _, _ => false

/-- Pointwise `Json.beq` on lists. -/
def Json.beqList : List Json → List Json → Bool
  | [], [] => true
  | a :: as, b :: bs => Json.beq a b && Json.beqList as bs
  | _, _ => false

/-- Pointwise `Json.beq` on object field lists. -/
def Json.beqFields : List (String × Json) → List (String × Json) → Bool
  | [], [] => true
  | (k, v) :: as, (k', v') :: bs => k == k' && Json.beq v v' && Json.beqFields as bs
  | _, _ => false

end

mutual

theorem Json.beq_iff : ∀ a b : Json, Json.beq a b = true ↔ a = b
  | Json.null, b => by cases b <;> simp [Json.beq]
  | Json.undef, b => by cases b <;> simp [Json.beq]
  | Json.bool x, b => by cases b <;> simp [Json.beq]
  | Json.num x, b => by cases b <;> simp [Json.beq]
  | Json.str x, b => by cases b <;> simp [Json.beq]
  | Json.arr xs, b => by
      cases b <;> simp [Json.beq]
      exact Json.beqList_iff xs _
  | Json.obj fs, b => by
      cases b <;> simp [Json.beq]
      exact Json.beqFields_iff fs _

theorem Json.beqList_iff : ∀ as bs : List Json, Json.beqList as bs = true ↔ as = bs
  | [], [] => by simp [Json.beqList]
  | [], _ :: _ => by simp [Json.beqList]
  | _ :: _, [] => by simp [Json.beqList]
  | a :: as, b :: bs => by
      simp only [Json.beqList, Bool.and_eq_true, List.cons.injEq]
      exact and_congr (Json.beq_iff a b) (Json.beqList_iff as bs)

theorem Json.beqFields_iff : ∀ as bs : List (String × Json), Json.beqFields as bs = true ↔ as = bs
  | [], [] => by simp [Json.beqFields]
  | [], _ :: _ => by simp [Json.beqFields]
  | _ :: _, [] => by simp [Json.beqFields]
  | (k, v) :: as, (k', v') :: bs => by
      simp only [Json.beqFields, Bool.and_eq_true, List.cons.injEq, Prod.mk.injEq, beq_iff_eq]
      rw [Json.beq_iff v v', Json.beqFields_iff as bs, and_assoc]

end

instance : DecidableEq Json := fun a b =>
  decidable_of_iff (Json.beq a b = true) (Json.beq_iff a b)

/-- JavaScript truthiness of a value, as used by conditions such as
`if (parsed.data)` and `if (baseRequest.headers['Content-Type'])`. -/
def Json.truthy : Json → Bool
  | Json.null => false
  | Json.undef => false
  | Json.bool b => b
  | Json.num n => n != 0
  | Json.str s => s ≠ ""
  | Json.arr _ => true
  | Json.obj _ => true

/-- Property lookup `o[k]` on an object's field list: value of the first
entry with the given key (JavaScript objects have unique keys, so the first
entry is the only one), `none` when the key is absent (JavaScript
`undefined`). -/
def jsLookup : List (String × Json) → String → Option Json
  | [], _ => none
  | (k', v) :: rest, k => if k' = k then some v else jsLookup rest k

/-- Property assignment `o[k] = v` on an object's field list: replaces the
value of the first entry with the given key keeping its position, or appends
a new entry at the end — exactly JavaScript's insertion-order behaviour. -/
def objAssign : List (String × Json) → String → Json → List (String × Json)
  | [], k, v => [(k, v)]
  | (k', v') :: rest, k, v =>
      if k' = k then (k', v) :: rest else (k', v') :: objAssign rest k v

/-- Property deletion `delete o[k]`: removes the entry with the given key
(on the unique-key field lists produced by `JSON.parse` the filter removes
exactly that one entry), leaving non-object values unchanged. -/
def jsDeleteKey : Json → String → Json
  | Json.obj fs, k => Json.obj (fs.filter (fun kv => kv.1 ≠ k))
  | j, _ => j

/-- In-place update `o[k] = f (o[k])` of an object entry, used to model the
source's `delete modifiedData[field][nestedField]`, which mutates the nested
object reached through property lookup. -/
def objModifyKey : Json → String → (Json → Json) → Json
  | Json.obj fs, k, f => Json.obj (fs.map (fun kv => if kv.1 = k then (kv.1, f kv.2) else kv))
  | j, _, _ => j

mutual

/-- Deep copy `JSON.parse(JSON.stringify(x))` as used pervasively by the
generators.  On values containing no `undefined` this is the identity; as in
JavaScript, object fields holding `undefined` are dropped and `undefined`
array elements become `null`. -/
def jsonClone : Json → Json
  | Json.null => Json.null
  | Json.undef => Json.null
  | Json.bool b => Json.bool b
  | Json.num n => Json.num n
  | Json.str s => Json.str s
  | Json.arr xs => Json.arr (jsonCloneList xs)
  | Json.obj fs => Json.obj (jsonCloneFields fs)

/-- Clone of an array's elements (`undefined` serialises to `null`). -/
def jsonCloneList : List Json → List Json
  | [] => []
  | x :: xs => jsonClone x :: jsonCloneList xs

/-- Clone of an object's fields (fields holding `undefined` are dropped by
`JSON.stringify`). -/
def jsonCloneFields : List (String × Json) → List (String × Json)
  | [] => []
  | (k, v) :: fs =>
      match v with
      | Json.undef => jsonCloneFields fs
      | _ => (k, jsonClone v) :: jsonCloneFields fs

end

mutual

/-- The source's `traverseObject(obj, callback, path)` helper: visits every
entry of an object in insertion order, invoking the callback on
`(value, path ++ [key])`, then recursing into values that are non-null
non-array objects.  Modelled as the list of `(path, value)` pairs in visit
order.  The source only ever calls it on objects; on any other value it
yields nothing. -/
def traverseObject : Json → List String → List (List String × Json)
  | Json.obj fs, path => traverseFields fs path
  | _, _ => []

/-- Visit of an object's field list by `traverseObject`: each entry is
visited before its own entries, siblings follow. -/
def traverseFields : List (String × Json) → List String → List (List String × Json)
  | [], _ => []
  | (k, v) :: rest, path =>
      ((path ++ [k]), v) :: (traverseObject v (path ++ [k]) ++ traverseFields rest path)

end

/-- The source's `setNestedValue(obj, path, value)`.  Walks the path from the
root: an intermediate key holding `undefined` (absent) or `null` is replaced
by a fresh empty object and the walk continues (JavaScript
`current[key] = {}`); an intermediate key holding any other non-object value
(or an array) aborts with only a diagnostic log, leaving the value unchanged;
finally the last key is assigned if the reached parent is a non-array object.
An empty path assigns the key `"undefined"` (JavaScript `path[-1]`), and the
source only ever applies the function to object roots. -/
def setNestedValue : Json → List String → Json → Json
  | cur, [], v =>
      match cur with
      | Json.obj fs => Json.obj (objAssign fs "undefined" v)
      | _ => cur
  | cur, [k], v =>
      match cur with
      | Json.obj fs => Json.obj (objAssign fs k v)
      | _ => cur
  | cur, k :: rest, v =>
      match cur with
      | Json.obj fs =>
          match jsLookup fs k with
          | none => Json.obj (objAssign fs k (setNestedValue (Json.obj []) rest v))
          | some Json.null => Json.obj (objAssign fs k (setNestedValue (Json.obj []) rest v))
          | some Json.undef => Json.obj (objAssign fs k (setNestedValue (Json.obj []) rest v))
          | some (Json.obj gs) => Json.obj (objAssign fs k (setNestedValue (Json.obj gs) rest v))
          | some _ => Json.obj fs
      | _ => cur

/-- Deletion of the node at a path, with no other change: the reference
operation the Missing-Field generator is measured against. -/
def deleteAtPath : Json → List String → Json
  | j, [] => j
  | j, [k] => jsDeleteKey j k
  | j, k :: rest => objModifyKey j k (fun v => deleteAtPath v rest)

/-- True when walking the path from the root meets an intermediate key (any
key but the last) holding an existing non-container value — a scalar or an
array — which is exactly the situation in which `setNestedValue` aborts. -/
def hitsNonContainer : Json → List String → Bool
  | Json.obj fs, k :: rest =>
      match rest with
      | [] => false
      | _ :: _ =>
          match jsLookup fs k with
          | none => false
          | some Json.null => false
          | some Json.undef => false
          | some (Json.obj gs) => hitsNonContainer (Json.obj gs) rest
          | some _ => true
  | _, _ => false

/-- The single-quote character, written via its code point to keep the
pattern definitions readable. -/
def quoteCh : Char := Char.ofNat 39

/-- The double-quote character. -/
def dquoteCh : Char := Char.ofNat 34

/-- Whitespace as matched by the regex class `\s` (the ASCII part, which is
all the engine's inputs use). -/
def isWs (c : Char) : Bool :=
  c = ' ' || c = Char.ofNat 9 || c = Char.ofNat 10 || c = Char.ofNat 13 ||
    c = Char.ofNat 11 || c = Char.ofNat 12

/-- Word characters as matched by the regex class `\w`. -/
def isWordChar (c : Char) : Bool :=
  (('a' ≤ c && c ≤ 'z') || ('A' ≤ c && c ≤ 'Z') || ('0' ≤ c && c ≤ '9') || c = '_')

/-- Matches a literal sequence at the head of the input, returning the rest. -/
def matchLit : List Char → List Char → Option (List Char)
  | [], s => some s
  | _ :: _, [] => none
  | c :: cs, a :: as => if a = c then matchLit cs as else none

/-- Case-insensitive variant of `matchLit`, for the `/i` regex flag. -/
def matchLitCI : List Char → List Char → Option (List Char)
  | [], s => some s
  | _ :: _, [] => none
  | c :: cs, a :: as => if a.toLower = c.toLower then matchLitCI cs as else none

/-- Maximal run of characters satisfying a predicate (a greedy `+`/`*` over a
character class), returning the run and the rest. -/
def takeRun (p : Char → Bool) : List Char → List Char × List Char
  | [] => ([], [])
  | c :: rest =>
      if p c then
        let (r, s) := takeRun p rest
        (c :: r, s)
      else ([], c :: rest)

/-- Matches `https?:\/\/` at the head of the input, returning the matched
scheme text and the rest.  The optional `s` never needs regex backtracking:
if the character after `http` is `s`, the only way to continue is `://`
after it. -/
def matchSchemeAt (s : List Char) : Option (List Char × List Char) :=
  match matchLit "http".data s with
  | none => none
  | some r1 =>
      match r1 with
      | 's' :: r2 => (matchLit "://".data r2).map (fun r3 => ("https://".data, r3))
      | _ => (matchLit "://".data r1).map (fun r3 => ("http://".data, r3))

/-- URL pattern 1, `'(https?:\/\/[^']+)'`, tried at one input position:
a single-quoted absolute URL.  The capture is the scheme plus the maximal
run of non-quote characters, which the closing quote must follow. -/
def urlPat1At (s : List Char) : Option (List Char) :=
  match s with
  | c :: r =>
      if c = quoteCh then
        match matchSchemeAt r with
        | none => none
        | some (pre, r2) =>
            let (run, r3) := takeRun (fun c => c != quoteCh) r2
            match run, r3 with
            | [], _ => none
            | _ :: _, c2 :: _ => if c2 = quoteCh then some (pre ++ run) else none
            | _ :: _, [] => none
      else none
  | [] => none

/-- URL pattern 2, `"(https?:\/\/[^"]+)"`: a double-quoted absolute URL. -/
def urlPat2At (s : List Char) : Option (List Char) :=
  match s with
  | c :: r =>
      if c = dquoteCh then
        match matchSchemeAt r with
        | none => none
        | some (pre, r2) =>
            let (run, r3) := takeRun (fun c => c != dquoteCh) r2
            match run, r3 with
            | [], _ => none
            | _ :: _, c2 :: _ => if c2 = dquoteCh then some (pre ++ run) else none
            | _ :: _, [] => none
      else none
  | [] => none

/-- Shared tail of URL patterns 3 and 4, `\s+['"]([^'"]+)['"]`: whitespace,
an opening quote of either kind, the captured run, a closing quote of either
kind. -/
def quotedArgAfter (r1 : List Char) : Option (List Char) :=
  let (ws, r2) := takeRun isWs r1
  if ws.isEmpty then none
  else
    match r2 with
    | q :: r3 =>
        if q = quoteCh || q = dquoteCh then
          let (run, r4) := takeRun (fun c => c != quoteCh && c != dquoteCh) r3
          match run, r4 with
          | [], _ => none
          | _ :: _, q2 :: _ => if q2 = quoteCh || q2 = dquoteCh then some run else none
          | _ :: _, [] => none
        else none
    | [] => none

/-- URL pattern 3, `--location\s+['"]([^'"]+)['"]`: a flag-introduced URL. -/
def urlPat3At (s : List Char) : Option (List Char) :=
  match matchLit "--location".data s with
  | none => none
  | some r1 => quotedArgAfter r1

/-- URL pattern 4, `curl\s+['"]([^'"]+)['"]`: the quoted argument right
after `curl`. -/
def urlPat4At (s : List Char) : Option (List Char) :=
  match matchLit "curl".data s with
  | none => none
  | some r1 => quotedArgAfter r1

/-- URL pattern 5, `(https?:\/\/[^\s'"]+)`: a bare absolute URL. -/
def urlPat5At (s : List Char) : Option (List Char) :=
  match matchSchemeAt s with
  | none => none
  | some (pre, r2) =>
      let (run, _) := takeRun (fun c => !(isWs c) && c != quoteCh && c != dquoteCh) r2
      if run.isEmpty then none else some (pre ++ run)

/-- Leftmost match of a position matcher over the input, as performed by
`String.prototype.match` on an unanchored regex: every start position is
tried from the left. -/
def scanFor (m : List Char → Option (List Char)) : List Char → Option (List Char)
  | [] => m []
  | c :: rest =>
      match m (c :: rest) with
      | some r => some r
      | none => scanFor m rest

/-- URL extraction of `parseCurl`: the five patterns are tried in order over
the whole command and the first one that matches anywhere wins; `none` when
no pattern matches. -/
def extractUrl (cmd : String) : Option String :=
  let s := cmd.data
  match scanFor urlPat1At s with
  | some u => some (String.mk u)
  | none =>
      match scanFor urlPat2At s with
      | some u => some (String.mk u)
      | none =>
          match scanFor urlPat3At s with
          | some u => some (String.mk u)
          | none =>
              match scanFor urlPat4At s with
              | some u => some (String.mk u)
              | none =>
                  match scanFor urlPat5At s with
                  | some u => some (String.mk u)
                  | none => none

/-- First alternative of the method regex `-X\s+(\w+)` (case-insensitive),
tried at one position. -/
def methodAltXAt (s : List Char) : Option (List Char) :=
  match matchLitCI "-x".data s with
  | none => none
  | some r1 =>
      let (ws, r2) := takeRun isWs r1
      if ws.isEmpty then none
      else
        let (w, _) := takeRun isWordChar r2
        if w.isEmpty then none else some w

/-- Second alternative of the method regex `--request\s+(\w+)`
(case-insensitive), tried at one position. -/
def methodAltRequestAt (s : List Char) : Option (List Char) :=
  match matchLitCI "--request".data s with
  | none => none
  | some r1 =>
      let (ws, r2) := takeRun isWs r1
      if ws.isEmpty then none
      else
        let (w, _) := takeRun isWordChar r2
        if w.isEmpty then none else some w

/-- Method extraction of `parseCurl`: the case-insensitive regex
`-X\s+(\w+)|--request\s+(\w+)`, leftmost match, first alternative preferred
at each position. -/
def extractMethod (cmd : String) : Option (List Char) :=
  scanFor
    (fun s =>
      match methodAltXAt s with
      | some w => some w
      | none => methodAltRequestAt s)
    cmd.data

/-- Uppercasing as applied by `toUpperCase()` to the captured method word
(word characters are ASCII, where `Char.toUpper` agrees with JavaScript). -/
def jsToUpper (s : String) : String := String.mk (s.data.map Char.toUpper)

/-- JavaScript `String.prototype.trim` on the ASCII whitespace the engine
encounters. -/
def trimChars (s : List Char) : List Char :=
  ((s.dropWhile isWs).reverse.dropWhile isWs).reverse

/-- One attempted match of the header regex
`(?:--header|-H)\s+['"]([^'"]+)['"]` at one position (alternatives tried in
order, `-H` case-sensitively since the regex carries no `/i` flag),
returning the capture and the rest of the input after the whole match. -/
def headerPatAt (s : List Char) : Option (List Char × List Char) :=
  let afterFlag :=
    match matchLit "--header".data s with
    | some r1 => some r1
    | none => matchLit "-H".data s
  match afterFlag with
  | none => none
  | some r1 =>
      let (ws, r2) := takeRun isWs r1
      if ws.isEmpty then none
      else
        match r2 with
        | q :: r3 =>
            if q = quoteCh || q = dquoteCh then
              let (run, r4) := takeRun (fun c => c != quoteCh && c != dquoteCh) r3
              match run, r4 with
              | [], _ => none
              | _ :: _, q2 :: r5 => if q2 = quoteCh || q2 = dquoteCh then some (run, r5) else none
              | _ :: _, [] => none
            else none
        | [] => none

/-- The source's `while ((headerMatch = headerPattern.exec(curlCommand)))`
loop over the global header regex: successive non-overlapping leftmost
matches, each continuing after the end of the previous one.  The fuel is the
input length; every step consumes at least one character. -/
def headerMatches : Nat → List Char → List (List Char)
  | 0, _ => []
  | _ + 1, [] => []
  | fuel + 1, c :: rest =>
      match headerPatAt (c :: rest) with
      | some (cap, r) => cap :: headerMatches fuel r
      | none => headerMatches fuel rest

/-- Splitting one captured header at its first colon, as in the source:
requires the colon index to be positive, and trims key and value. -/
def splitHeader (h : List Char) : Option (String × String) :=
  match h.span (fun c => c ≠ ':') with
  | (_, []) => none
  | ([], _ :: _) => none
  | (pre@(_ :: _), _ :: post) =>
      some (String.mk (trimChars pre), String.mk (trimChars post))

/-- Assignment into the header mapping: duplicate names overwrite in place,
new names append — JavaScript object assignment on string values. -/
def headerAssign : List (String × String) → String → String → List (String × String)
  | [], k, v => [(k, v)]
  | (k', v') :: rest, k, v =>
      if k' = k then (k', v) :: rest else (k', v') :: headerAssign rest k v

/-- Lookup in the header mapping (first entry with the key). -/
def headerLookup : List (String × String) → String → Option String
  | [], _ => none
  | (k', v) :: rest, k => if k' = k then some v else headerLookup rest k

/-- Removal from the header mapping, `delete headers[k]`. -/
def headerDelete (hs : List (String × String)) (k : String) : List (String × String) :=
  hs.filter (fun kv => kv.1 ≠ k)

/-- Header extraction of `parseCurl`: every captured `name: value` pair in
match order, folded into the mapping with overwrite-on-duplicate. -/
def extractHeaders (cmd : String) : List (String × String) :=
  (headerMatches cmd.data.length cmd.data).foldl
    (fun acc cap =>
      match splitHeader cap with
      | some (k, v) => headerAssign acc k v
      | none => acc)
    []

/-- The canonical parsed request built by `parseCurl` (the source's `parsed`
object; `params` is created empty and never populated). -/
structure ParsedRequest where
  method : String
  url : String
  headers : List (String × String)
  data : Json
  params : List (String × String)
deriving Repr, DecidableEq

/-- The method the request carries before data-based promotion: the explicit
method flag uppercased when present, `GET` otherwise. -/
def methodFromFlag (cmd : String) : String :=
  match extractMethod cmd with
  | some w => jsToUpper (String.mk w)
  | none => "GET"

/-- The source's `parseCurl`, with the result of `extractDataAggressively`
supplied as the `dataRes` parameter (that helper delegates to the host JSON
parser over four data patterns, with a repair pass and a fixed fallback for
one known endpoint; its result is the JavaScript value it returns, `null`
for failure).  URL, method and header extraction are translated in full; a
truthy extracted payload promotes a `GET` method to `POST`, and no other
method change ever happens. -/
def parseCurl (cmd : String) (dataRes : Json) : ParsedRequest :=
  let url := (extractUrl cmd).getD ""
  let m0 := methodFromFlag cmd
  let method := if dataRes.truthy && m0 = "GET" then "POST" else m0
  { method := method
    url := url
    headers := extractHeaders cmd
    data := dataRes
    params := [] }

/-- One generated test case (the source's object literal with `type`,
`description`, `request`, `expectedStatus`, `expectedResult`). -/
structure TestCase where
  type : String
  description : String
  request : ParsedRequest
  expectedStatus : Nat
  expectedResult : String
deriving Repr, DecidableEq

/-- The source's `getStatusText` lookup table. -/
def getStatusText (status : Nat) : String :=
  if status = 200 then "OK"
  else if status = 201 then "Created"
  else if status = 202 then "Accepted"
  else if status = 204 then "No Content"
  else if status = 400 then "Bad Request"
  else if status = 401 then "Unauthorized"
  else if status = 403 then "Forbidden"
  else if status = 404 then "Not Found"
  else if status = 409 then "Conflict"
  else if status = 415 then "Unsupported Media Type"
  else if status = 422 then "Unprocessable Entity"
  else if status = 429 then "Too Many Requests"
  else if status = 500 then "Internal Server Error"
  else if status = 502 then "Bad Gateway"
  else if status = 503 then "Service Unavailable"
  else "Unknown"

/-- The single-quote character as a string, for building the attack payload
literals. -/
def sq : String := String.mk [quoteCh]

/-- The backtick character as a string, for the special-characters payload. -/
def btick : String := String.mk [Char.ofNat 96]

/-- Clone of a whole request, `JSON.parse(JSON.stringify(baseRequest))`:
the scalar fields and string-valued header mapping round-trip unchanged and
the payload is deep-copied. -/
def cloneRequest (r : ParsedRequest) : ParsedRequest :=
  { r with data := jsonClone r.data }

/-- Path rendering `path.join('.')` used in the generated descriptions. -/
def joinPath (path : List String) : String := String.intercalate "." path

/-- The source's `generateMissingFieldTests`: one case per top-level key of
the payload object with that key deleted from a fresh clone, then one case
per key of each object-valued top-level field with that nested key deleted
from a fresh clone.  The payload is an object whenever this generator runs. -/
def generateMissingFieldTests (base : ParsedRequest) : List TestCase :=
  match base.data with
  | Json.obj fs =>
      let top := fs.map (fun kv =>
        let modifiedData := jsDeleteKey (jsonClone (Json.obj fs)) kv.1
        { type := "Negative - Missing"
          description := "Missing " ++ kv.1 ++ " field"
          request := { base with data := modifiedData }
          expectedStatus := 400
          expectedResult := "400 Bad Request" : TestCase })
      let nested := fs.flatMap (fun kv =>
        match kv.2 with
        | Json.obj gs => gs.map (fun nk =>
            let modifiedData :=
              objModifyKey (jsonClone (Json.obj fs)) kv.1 (fun v => jsDeleteKey v nk.1)
            { type := "Negative - Missing"
              description := "Missing " ++ kv.1 ++ "." ++ nk.1 ++ " field"
              request := { base with data := modifiedData }
              expectedStatus := 400
              expectedResult := "400 Bad Request" : TestCase })
        | _ => [])
      top ++ nested
  | _ => []

/-- The source's `generateInvalidTypeTests`: every string leaf replaced (in a
fresh clone) by the number `12345`, every numeric leaf by the string
`"not_a_number"`. -/
def generateInvalidTypeTests (base : ParsedRequest) : List TestCase :=
  let data := base.data
  (traverseObject data []).flatMap (fun pv =>
    match pv.2 with
    | Json.str _ =>
        [{ type := "Negative - Type"
           description := "Wrong type for " ++ joinPath pv.1 ++ " (number instead of string)"
           request := { base with data := setNestedValue (jsonClone data) pv.1 (Json.num 12345) }
           expectedStatus := 400
           expectedResult := "400 Bad Request" }]
    | Json.num _ =>
        [{ type := "Negative - Type"
           description := "Wrong type for " ++ joinPath pv.1 ++ " (string instead of number)"
           request := { base with data := setNestedValue (jsonClone data) pv.1 (Json.str "not_a_number") }
           expectedStatus := 400
           expectedResult := "400 Bad Request" }]
    | _ => [])

/-- The source's `generateNullValueTests`: every visited node set to `null`
(in a fresh clone), and additionally every string leaf set to the empty
string. -/
def generateNullValueTests (base : ParsedRequest) : List TestCase :=
  let data := base.data
  (traverseObject data []).flatMap (fun pv =>
    let nullCase : TestCase :=
      { type := "Negative - Null"
        description := "Null value for " ++ joinPath pv.1
        request := { base with data := setNestedValue (jsonClone data) pv.1 Json.null }
        expectedStatus := 400
        expectedResult := "400 Bad Request" }
    match pv.2 with
    | Json.str _ =>
        [nullCase,
         { type := "Negative - Empty"
           description := "Empty string for " ++ joinPath pv.1
           request := { base with data := setNestedValue (jsonClone data) pv.1 (Json.str "") }
           expectedStatus := 400
           expectedResult := "400 Bad Request" }]
    | _ => [nullCase])

/-- The source's fixed attack table (name, payload). -/
def attacks : List (String × String) :=
  [("XSS", "<script>alert(\"xss\")</script>"),
   ("SQL", sq ++ "; DROP TABLE users; --"),
   ("NoSQL", "\x7b\"$gt\": \"\"\x7d"),
   ("LDAP", "*)(uid=*))(|(uid=*"),
   ("Command", "; rm -rf /"),
   ("Path", "../../../etc/passwd")]

/-- The source's `generateSecurityTests`: for every string leaf, one case per
attack payload, the leaf replaced by the payload in a fresh clone. -/
def generateSecurityTests (base : ParsedRequest) : List TestCase :=
  let data := base.data
  (traverseObject data []).flatMap (fun pv =>
    match pv.2 with
    | Json.str _ =>
        attacks.map (fun attack =>
          { type := "Security - " ++ attack.1
            description := attack.1 ++ " injection in " ++ joinPath pv.1
            request := { base with data := setNestedValue (jsonClone data) pv.1 (Json.str attack.2) }
            expectedStatus := 400
            expectedResult := "400 Bad Request" })
    | _ => [])

/-- The special-characters edge payload of the source. -/
def specialChars : String :=
  "!@#$%^&*()_+\x7b\x7d[]|\\:\";" ++ sq ++ "<>?,." ++ btick ++ "~"

/-- The source's `generateEdgeCaseTests`: string leaves get a 1000-character
string, the special-characters string and an emoji string; numeric leaves get
`Number.MAX_SAFE_INTEGER` and `-999999`. -/
def generateEdgeCaseTests (base : ParsedRequest) : List TestCase :=
  let data := base.data
  (traverseObject data []).flatMap (fun pv =>
    match pv.2 with
    | Json.str _ =>
        [{ type := "Edge - Long"
           description := "Very long string for " ++ joinPath pv.1
           request := { base with
             data := setNestedValue (jsonClone data) pv.1 (Json.str (String.mk (List.replicate 1000 'a'))) }
           expectedStatus := 400
           expectedResult := "400 Bad Request" },
         { type := "Edge - Special"
           description := "Special characters in " ++ joinPath pv.1
           request := { base with data := setNestedValue (jsonClone data) pv.1 (Json.str specialChars) }
           expectedStatus := 400
           expectedResult := "400 Bad Request" },
         { type := "Edge - Unicode"
           description := "Unicode characters in " ++ joinPath pv.1
           request := { base with data := setNestedValue (jsonClone data) pv.1 (Json.str "🚀💻🔥🎯📊✅❌🧪") }
           expectedStatus := 400
           expectedResult := "400 Bad Request" }]
    | Json.num _ =>
        [{ type := "Edge - Large"
           description := "Maximum safe integer for " ++ joinPath pv.1
           request := { base with data := setNestedValue (jsonClone data) pv.1 (Json.num 9007199254740991) }
           expectedStatus := 400
           expectedResult := "400 Bad Request" },
         { type := "Edge - Negative"
           description := "Large negative number for " ++ joinPath pv.1
           request := { base with data := setNestedValue (jsonClone data) pv.1 (Json.num (-999999)) }
           expectedStatus := 400
           expectedResult := "400 Bad Request" }]
    | _ => [])

/-- The source's fixed fuzz value pool
`[undefined, [], {}, 'null', 'undefined', '[]', '{}', 'true', 'false']`. -/
def fuzzValues : List Json :=
  [Json.undef, Json.arr [], Json.obj [], Json.str "null", Json.str "undefined",
   Json.str "[]", Json.str "\x7b\x7d", Json.str "true", Json.str "false"]

/-- The source's `generateFuzzTests`: five passes; in each pass the paths of
the original payload are traversed and, as decided by the random draws
(modelled by `oracle pass path`, `some i` meaning the value at the path is
replaced by pool entry `i`, `none` meaning the 0.4-probability draw failed),
`setNestedValue` is applied to the pass's fresh clone. -/
def generateFuzzTests (oracle : Nat → List String → Option (Fin 9)) (base : ParsedRequest) :
    List TestCase :=
  let data := base.data
  (List.range 5).map (fun i =>
    let modifiedData := (traverseObject data []).foldl
      (fun acc pv =>
        match oracle i pv.1 with
        | some fi => setNestedValue acc pv.1 (fuzzValues.get (fi.cast (by decide)))
        | none => acc)
      (jsonClone data)
    { type := "Fuzz"
      description := "Random fuzz test #" ++ toString (i + 1)
      request := { base with data := modifiedData }
      expectedStatus := 400
      expectedResult := "Varies" })

/-- The source's `generateHeaderTests`: when the request carries a truthy
`Content-Type` header (looked up case-sensitively), two cases are produced on
fresh clones of the whole request — the header deleted, and the header set to
`text/plain`; otherwise nothing. -/
def generateHeaderTests (base : ParsedRequest) : List TestCase :=
  match headerLookup base.headers "Content-Type" with
  | some v =>
      if v ≠ "" then
        let noContentType :=
          { cloneRequest base with headers := headerDelete (cloneRequest base).headers "Content-Type" }
        let wrongContentType :=
          { cloneRequest base with
              headers := headerAssign (cloneRequest base).headers "Content-Type" "text/plain" }
        [{ type := "Negative - Header"
           description := "Missing Content-Type header"
           request := noContentType
           expectedStatus := 415
           expectedResult := "415 Unsupported Media Type" },
         { type := "Negative - Header"
           description := "Wrong Content-Type (text/plain)"
           request := wrongContentType
           expectedStatus := 415
           expectedResult := "415 Unsupported Media Type" }]
      else []
  | none => []

/-- The guard `baseRequest.data && typeof baseRequest.data === 'object' &&
!Array.isArray(baseRequest.data)` selecting the payload-dependent
generators: exactly the (always truthy) objects. -/
def isDataObject : Json → Bool
  | Json.obj _ => true
  | _ => false

/-- The source's `generateTestCases(parsedCurl, schema, expectedStatus)` (the
`schema` argument is accepted and never used by the source): a deep clone of
the parsed request is taken as the base; the Positive case always comes
first; the six payload generators run when the payload is a (non-array,
non-null) object; the header generator runs when the header mapping is
non-empty. -/
def generateTestCases (parsedCurl : ParsedRequest) (_schema : Json) (expectedStatus : Nat)
    (oracle : Nat → List String → Option (Fin 9)) : List TestCase :=
  let baseRequest := cloneRequest parsedCurl
  let positive : TestCase :=
    { type := "Positive"
      description := "Valid input data"
      request := cloneRequest baseRequest
      expectedStatus := expectedStatus
      expectedResult := toString expectedStatus ++ " " ++ getStatusText expectedStatus }
  let dataTests :=
    if isDataObject baseRequest.data then
      generateMissingFieldTests baseRequest ++
      generateInvalidTypeTests baseRequest ++
      generateNullValueTests baseRequest ++
      generateSecurityTests baseRequest ++
      generateEdgeCaseTests baseRequest ++
      generateFuzzTests oracle baseRequest
    else []
  let headerTests :=
    if baseRequest.headers.length > 0 then generateHeaderTests baseRequest else []
  positive :: (dataTests ++ headerTests)

/-- Does the first list start with the second? -/
def headMatch : List Char → List Char → Bool
  | _, [] => true
  | [], _ :: _ => false
  | a :: as, b :: bs => a == b && headMatch as bs

/-- Substring occurrence, scanning every start position. -/
def hasSub (sub : List Char) : List Char → Bool
  | [] => sub.isEmpty
  | c :: rest => headMatch (c :: rest) sub || hasSub sub rest

/-- JavaScript `String.prototype.includes`. -/
def jsIncludes (s sub : String) : Bool := hasSub sub.data s.data

/-- The source's `isExpectedResult(actualStatus, expectedStatus, testType)`:
the Positive category passes on the expected status or the conventional
success set; every category whose type mentions Negative, Security, Edge or
Fuzz passes exactly on statuses at least 400; anything else would require
the exact expected status. -/
def isExpectedResult (actualStatus expectedStatus : Nat) (testType : String) : Bool :=
  if testType = "Positive" then
    actualStatus == expectedStatus || actualStatus == 200 || actualStatus == 201
  else if jsIncludes testType "Negative" || jsIncludes testType "Security" ||
      jsIncludes testType "Edge" || jsIncludes testType "Fuzz" then
    decide (400 ≤ actualStatus)
  else
    actualStatus == expectedStatus

/-- One network interaction, as seen by `executeRequest`: a response with a
status code and body, a connection error carrying a message, or the bounded
wait expiring. -/
inductive NetResult where
  | ok : Nat → Json → NetResult
  | connError : String → NetResult
  | timedOut : NetResult
deriving Repr, DecidableEq

/-- The outcome `executeRequest` resolves with: observed status (`0` for
transport failure), response body, and the error message populated exactly in
the transport-failure cases. -/
structure Outcome where
  status : Nat
  data : Json
  error : Option String
deriving Repr, DecidableEq

/-- The source's `executeRequest`, as a function of the network interaction
it performs: a response resolves with its status and body and no error; the
`error` event resolves with status `0` and the error message; the `timeout`
event destroys the request and resolves with status `0` and the message
`Request timeout`.  The promise never rejects and the request is issued
exactly once. -/
def executeRequest : NetResult → Outcome
  | NetResult.ok s b => { status := s, data := b, error := none }
  | NetResult.connError msg => { status := 0, data := Json.null, error := some msg }
  | NetResult.timedOut => { status := 0, data := Json.null, error := some "Request timeout" }

/-- One stored result row of `runTests` (the source's `this.results.push`
record, without the back-pointer to the test case). -/
structure Verdict where
  testName : String
  responseCode : Nat
  expected : Nat
  actual : Nat
  passed : Bool
  error : Option String
deriving Repr, DecidableEq

/-- The classification step of the `runTests` loop body: a status of `0`
takes the transport-error branch, which counts as failed for every category;
otherwise the verdict is `isExpectedResult` on the observed status. -/
def mkVerdict (testCase : TestCase) (response : Outcome) : Verdict :=
  if response.status = 0 then
    { testName := testCase.type ++ " - " ++ testCase.description
      responseCode := response.status
      expected := testCase.expectedStatus
      actual := response.status
      passed := false
      error := response.error }
  else
    { testName := testCase.type ++ " - " ++ testCase.description
      responseCode := response.status
      expected := testCase.expectedStatus
      actual := response.status
      passed := isExpectedResult response.status testCase.expectedStatus testCase.type
      error := response.error }

/-- The execution loop of `runTests`: the test cases are processed strictly
in order, the `i`-th test case consuming exactly the `i`-th network
interaction — one request per test case, never a retry. -/
def runLoop (net : Nat → NetResult) : Nat → List TestCase → List Verdict
  | _, [] => []
  | i, testCase :: rest => mkVerdict testCase (executeRequest (net i)) :: runLoop net (i + 1) rest

/-- What a whole run leaves behind: the ordered verdicts, the two counters,
and whether the run was aborted because no URL could be extracted (in which
case the source prints an error and returns with nothing generated and
nothing executed). -/
structure RunResult where
  verdicts : List Verdict
  passCount : Nat
  failCount : Nat
  urlMissing : Bool
deriving Repr, DecidableEq

/-- The source's `runTests(curlCommand, schema, expectedStatus)`, over the
network oracle and the fuzz oracle, with the result of the data-extraction
helper supplied as in `parseCurl`: parse; abort with an empty result when no
URL was found; otherwise generate the test cases and execute them one at a
time, counting passed and failed verdicts. -/
def runTests (net : Nat → NetResult) (cmd : String) (dataRes : Json)
    (expectedStatus : Nat) (oracle : Nat → List String → Option (Fin 9)) : RunResult :=
  let parsed := parseCurl cmd dataRes
  if parsed.url = "" then
    { verdicts := [], passCount := 0, failCount := 0, urlMissing := true }
  else
    let testCases := generateTestCases parsed (Json.obj []) expectedStatus oracle
    let verdicts := runLoop net 0 testCases
    { verdicts := verdicts
      passCount := (verdicts.filter (fun v => v.passed)).length
      failCount := (verdicts.filter (fun v => !v.passed)).length
      urlMissing := false }

/-- Claim C1, counterexample: the claim states that a Header-Variant case
(type `Negative - Header`) with observed status 400 yields a failed verdict,
since only 415 may pass; the classifier in fact passes it, because the type
contains `Negative` and the status is at least 400. -/
theorem header_variant_400_passes :
    isExpectedResult 400 415 "Negative - Header" = true ∧ (400 : Nat) ≠ 415 := by decide

/-- Claim C1, amended: for every Header-Variant test case and every non-zero
observed status, the classifier passes the verdict if and only if the status
is at least 400 — the general negative rule, not the stricter
equals-415 rule; 415 is only the displayed expectation. -/
theorem header_variant_passes_iff_ge_400 :
    ∀ s e : Nat, 0 < s → (isExpectedResult s e "Negative - Header" = true ↔ 400 ≤ s) := by
  intro s e hs
  unfold isExpectedResult
  rw [if_neg (by decide), if_pos (by decide)]
  exact decide_eq_true_iff

/-- Witness for the amended C1 at status 415, expected 415. -/
theorem header_variant_passes_iff_ge_400_witness :
    0 < 415 ∧ (isExpectedResult 415 415 "Negative - Header" = true ↔ 400 ≤ 415) :=
  ⟨by decide, header_variant_passes_iff_ge_400 415 415 (by decide)⟩

/-- Claim C2, counterexample: the claim states that a Fuzz outcome with a
non-zero status below 400 is not thereby a failure; in the code a Fuzz test
case observing status 200 is classified as failed, because the classifier
applies the status-at-least-400 rule to every type containing `Fuzz`. -/
theorem fuzz_200_fails :
    (mkVerdict
        { type := "Fuzz"
          description := "Random fuzz test #1"
          request :=
            { method := "POST", url := "https://api.example.com/objects", headers := [],
              data := Json.obj [("name", Json.str "Widget")], params := [] }
          expectedStatus := 400
          expectedResult := "Varies" }
        (executeRequest (NetResult.ok 200 (Json.obj [])))).passed = false := by decide

/-- Claim C2, amended: Fuzz test cases are judged exactly like the negative
categories: for every non-zero observed status, the verdict passes if and
only if the status is at least 400 (so a 200 on a fuzz payload is counted as
a failure, not merely recorded). -/
theorem fuzz_passes_iff_ge_400 :
    ∀ s e : Nat, 0 < s → (isExpectedResult s e "Fuzz" = true ↔ 400 ≤ s) := by
  intro s e hs
  unfold isExpectedResult
  rw [if_neg (by decide), if_pos (by decide)]
  exact decide_eq_true_iff

/-- Witness for the amended C2 at status 500. -/
theorem fuzz_passes_iff_ge_400_witness :
    0 < 500 ∧ (isExpectedResult 500 400 "Fuzz" = true ↔ 400 ≤ 500) :=
  ⟨by decide, fuzz_passes_iff_ge_400 500 400 (by decide)⟩

/-- Claim C5: for every test case type produced by the Missing-Field,
Type-Mismatch, Null-Value, Empty-Value, Security and Edge generators and
every non-zero observed status, the classifier passes the verdict if and
only if the status is at least 400, whatever the expected status — any
client-error or server-error code passes, any status below 400 fails. -/
theorem negative_categories_pass_iff_ge_400 :
    ∀ t ∈ ["Negative - Missing", "Negative - Type", "Negative - Null", "Negative - Empty",
           "Security - XSS", "Security - SQL", "Security - NoSQL", "Security - LDAP",
           "Security - Command", "Security - Path",
           "Edge - Long", "Edge - Special", "Edge - Unicode", "Edge - Large", "Edge - Negative"],
      ∀ s e : Nat, 0 < s → (isExpectedResult s e t = true ↔ 400 ≤ s) := by
  intro t ht s e hs
  fin_cases ht <;>
    · unfold isExpectedResult
      rw [if_neg (by decide), if_pos (by decide)]
      exact decide_eq_true_iff

/-- Witness for C5: a Missing-Field case with observed status 422 passes. -/
theorem negative_categories_pass_iff_ge_400_witness :
    "Negative - Missing" ∈
        ["Negative - Missing", "Negative - Type", "Negative - Null", "Negative - Empty",
         "Security - XSS", "Security - SQL", "Security - NoSQL", "Security - LDAP",
         "Security - Command", "Security - Path",
         "Edge - Long", "Edge - Special", "Edge - Unicode", "Edge - Large", "Edge - Negative"] ∧
      0 < 422 ∧ (isExpectedResult 422 400 "Negative - Missing" = true ↔ 400 ≤ 422) :=
  ⟨by decide, by decide,
    negative_categories_pass_iff_ge_400 "Negative - Missing" (by decide) 422 400 (by decide)⟩

/-- Claim C6: whenever no URL-extraction pattern matches the input text, the
run aborts as a terminal extraction failure (the source's
could-not-extract-URL error, the spec's `MissingTargetError`): no test case
is generated, nothing is executed, and the run result is a well-formed empty
result rather than a crash, whatever the network, payload extraction,
expected status and fuzz randomness. -/
theorem no_url_empty_run :
    ∀ (net : Nat → NetResult) (cmd : String) (dataRes : Json) (expectedStatus : Nat)
      (oracle : Nat → List String → Option (Fin 9)),
      extractUrl cmd = none →
      runTests net cmd dataRes expectedStatus oracle =
        { verdicts := [], passCount := 0, failCount := 0, urlMissing := true } := by
  intro net cmd dataRes expectedStatus oracle h
  unfold runTests parseCurl
  simp [h]

/-- Witness for C6 on a text containing no recognisable URL. -/
theorem no_url_empty_run_witness :
    runTests (fun _ => NetResult.timedOut) "please test my api" Json.null 201 (fun _ _ => none) =
      { verdicts := [], passCount := 0, failCount := 0, urlMissing := true } :=
  no_url_empty_run _ _ _ _ _ (by decide)

/-- Claim C7: a connection error or timeout makes `executeRequest` resolve
with status 0 and a populated error string; a status-0 outcome is counted as
a failed verdict for every test case of every category; and the execution
loop issues exactly one network interaction per test case, in order, so no
request is ever retried. -/
theorem transport_failure_fails_once :
    (∀ msg : String,
        executeRequest (NetResult.connError msg) =
          { status := 0, data := Json.null, error := some msg }) ∧
    (executeRequest NetResult.timedOut =
        { status := 0, data := Json.null, error := some "Request timeout" }) ∧
    (∀ (testCase : TestCase) (response : Outcome),
        response.status = 0 → (mkVerdict testCase response).passed = false) ∧
    (∀ (net : Nat → NetResult) (i : Nat) (testCases : List TestCase),
        runLoop net i testCases =
          (List.enumFrom i testCases).map (fun p => mkVerdict p.2 (executeRequest (net p.1))) ∧
        (runLoop net i testCases).length = testCases.length) := by
  refine ⟨fun msg => rfl, rfl, ?_, ?_⟩
  · intro testCase response h
    unfold mkVerdict
    rw [if_pos h]
  · intro net i testCases
    induction testCases generalizing i with
    | nil => exact ⟨rfl, rfl⟩
    | cons tc rest ih =>
        refine ⟨?_, ?_⟩
        · simp only [runLoop, List.enumFrom, List.map]
          exact congrArg _ (ih (i + 1)).1
        · simp only [runLoop, List.length_cons]
          exact congrArg _ (ih (i + 1)).2

/-- Witness for C7: a concrete fuzz-category test case hit by a connection
error is recorded with status 0 and counted as failed. -/
theorem transport_failure_fails_once_witness :
    (mkVerdict
        { type := "Fuzz"
          description := "Random fuzz test #2"
          request :=
            { method := "POST", url := "https://api.example.com/objects", headers := [],
              data := Json.obj [], params := [] }
          expectedStatus := 400
          expectedResult := "Varies" }
        { status := 0, data := Json.null, error := some "connect ECONNREFUSED" }).passed = false :=
  transport_failure_fails_once.2.2.1 _ _ rfl

/-- Claim C8: the parsed method comes from the explicit method flag when one
is present and defaults to GET otherwise; a truthy extracted payload promotes
a GET method to POST, and no demotion to GET (or any other change away from
an explicit non-GET method) ever happens. -/
theorem method_flag_default_and_promotion :
    (∀ (cmd : String) (d : Json), extractMethod cmd = none → Json.truthy d = false →
        (parseCurl cmd d).method = "GET") ∧
    (∀ (cmd : String) (d : Json) (w : List Char), extractMethod cmd = some w →
        jsToUpper (String.mk w) ≠ "GET" →
        (parseCurl cmd d).method = jsToUpper (String.mk w)) ∧
    (∀ (cmd : String) (d : Json), Json.truthy d = true → methodFromFlag cmd = "GET" →
        (parseCurl cmd d).method = "POST") ∧
    (∀ (cmd : String) (d : Json), (parseCurl cmd d).method = "GET" →
        methodFromFlag cmd = "GET" ∧ Json.truthy d = false) := by
  refine ⟨?_, ?_, ?_, ?_⟩
  · intro cmd d hm hd
    unfold parseCurl
    simp [methodFromFlag, hm, hd]
  · intro cmd d w hm hne
    unfold parseCurl
    simp only [methodFromFlag, hm]
    rw [if_neg]
    simp [hne]
  · intro cmd d hd hm
    unfold parseCurl
    simp [hm, hd]
  · intro cmd d h
    have h' :
        (if (d.truthy && decide (methodFromFlag cmd = "GET")) = true then "POST"
          else methodFromFlag cmd) = "GET" := h
    by_cases hc : (d.truthy && decide (methodFromFlag cmd = "GET")) = true
    · rw [if_pos hc] at h'
      exact absurd h' (by decide)
    · rw [if_neg hc] at h'
      refine ⟨h', ?_⟩
      cases htr : d.truthy with
      | false => rfl
      | true => exact absurd (by simp [htr, h']) hc

/-- Witness for C8: an explicit lowercase `delete` flag is uppercased and
survives payload absence. -/
theorem method_flag_default_and_promotion_witness :
    (parseCurl "curl -X delete https://api.example.com/x" Json.null).method =
      jsToUpper (String.mk "delete".data) :=
  method_flag_default_and_promotion.2.1 "curl -X delete https://api.example.com/x" Json.null
    "delete".data (by decide) (by decide)

/-- Helper: assigning back the value an object key already holds leaves the
field list unchanged. -/
theorem objAssign_lookup_eq :
    ∀ (fs : List (String × Json)) (k : String) (w : Json),
      jsLookup fs k = some w → objAssign fs k w = fs := by
  intro fs k w
  induction fs with
  | nil => intro h; exact Option.noConfusion h
  | cons kv rest ih =>
      intro h
      obtain ⟨k', v'⟩ := kv
      by_cases hk : k' = k
      · subst hk
        rw [jsLookup, if_pos rfl] at h
        injection h with h
        subst h
        rw [objAssign, if_pos rfl]
      · rw [jsLookup, if_neg hk] at h
        rw [objAssign, if_neg hk, ih h]

/-- Claim C9, counterexample: the claim states that whenever an intermediate
path segment does not resolve to a mapping container the mutation is skipped
and the object left unchanged; but for a missing intermediate segment the
code creates an empty object there (`current[key] = {}`) and proceeds, so
the object is changed. -/
theorem set_nested_vivifies_missing_segment :
    setNestedValue (Json.obj [("a", Json.num 1)]) ["b", "c"] (Json.num 5) =
        Json.obj [("a", Json.num 1), ("b", Json.obj [("c", Json.num 5)])] ∧
      setNestedValue (Json.obj [("a", Json.num 1)]) ["b", "c"] (Json.num 5) ≠
        Json.obj [("a", Json.num 1)] := by decide

/-- Unfolding of `hitsNonContainer` on an object and a path of length at
least two, by definitional reduction. -/
theorem hitsNonContainer_cons (fs : List (String × Json)) (k r : String) (rs : List String) :
    hitsNonContainer (Json.obj fs) (k :: r :: rs) =
      match jsLookup fs k with
      | none => false
      | some Json.null => false
      | some Json.undef => false
      | some (Json.obj gs) => hitsNonContainer (Json.obj gs) (r :: rs)
      | some _ => true := rfl

/-- Unfolding of `setNestedValue` on an object and a path of length at least
two, by definitional reduction. -/
theorem setNestedValue_cons_cons (fs : List (String × Json)) (k r : String) (rs : List String)
    (v : Json) :
    setNestedValue (Json.obj fs) (k :: r :: rs) v =
      match jsLookup fs k with
      | none => Json.obj (objAssign fs k (setNestedValue (Json.obj []) (r :: rs) v))
      | some Json.null => Json.obj (objAssign fs k (setNestedValue (Json.obj []) (r :: rs) v))
      | some Json.undef => Json.obj (objAssign fs k (setNestedValue (Json.obj []) (r :: rs) v))
      | some (Json.obj gs) => Json.obj (objAssign fs k (setNestedValue (Json.obj gs) (r :: rs) v))
      | some _ => Json.obj fs := rfl

/-- Claim C9, amended: the path-set operation is total, and it no-ops (log
and skip, object unchanged) exactly when some intermediate path segment
resolves to an existing non-container value — a scalar or an array; when an
intermediate segment is missing or null, an empty mapping is created there
and the mutation proceeds. -/
theorem set_nested_skips_non_container :
    ∀ (j : Json) (path : List String) (v : Json),
      hitsNonContainer j path = true → setNestedValue j path v = j := by
  intro j path v
  induction path generalizing j with
  | nil => intro h; cases j <;> exact Bool.noConfusion h
  | cons k rest ih =>
      intro h
      cases j with
      | obj fs =>
          cases rest with
          | nil => exact Bool.noConfusion h
          | cons r rs =>
              rw [hitsNonContainer_cons] at h
              rw [setNestedValue_cons_cons]
              rcases hl : jsLookup fs k with _ | w
              · rw [hl] at h
                exact Bool.noConfusion h
              · rw [hl] at h
                cases w with
                | obj gs =>
                    have h' : hitsNonContainer (Json.obj gs) (r :: rs) = true := h
                    show Json.obj (objAssign fs k (setNestedValue (Json.obj gs) (r :: rs) v)) =
                      Json.obj fs
                    rw [ih (Json.obj gs) h', objAssign_lookup_eq fs k (Json.obj gs) hl]
                | null => exact Bool.noConfusion h
                | undef => exact Bool.noConfusion h
                | bool b => rfl
                | num n => rfl
                | str s => rfl
                | arr xs => rfl
      | null => exact Bool.noConfusion h
      | undef => exact Bool.noConfusion h
      | bool b => exact Bool.noConfusion h
      | num n => exact Bool.noConfusion h
      | str s => exact Bool.noConfusion h
      | arr xs => exact Bool.noConfusion h

/-- Witness for the amended C9: a scalar intermediate segment leaves the
object unchanged. -/
theorem set_nested_skips_non_container_witness :
    setNestedValue (Json.obj [("a", Json.num 1)]) ["a", "c"] (Json.num 5) =
      Json.obj [("a", Json.num 1)] :=
  set_nested_skips_non_container _ _ _ (by decide)

/-- Claim C10: a non-empty header mapping with no key spelled exactly
`Content-Type` (the lookup is case-sensitive) makes the Header-Variant
generator emit zero test cases. -/
theorem no_exact_content_type_no_header_tests :
    ∀ base : ParsedRequest, base.headers ≠ [] →
      headerLookup base.headers "Content-Type" = none →
      generateHeaderTests base = [] := by
  intro base hne h
  unfold generateHeaderTests
  rw [h]

/-- Witness for C10: a lowercase `content-type` header produces no
Header-Variant cases even though a content-type header is present. -/
theorem no_exact_content_type_no_header_tests_witness :
    generateHeaderTests
        { method := "POST", url := "https://api.example.com/objects",
          headers := [("content-type", "application/json")],
          data := Json.obj [("name", Json.str "Widget")], params := [] } = [] :=
  no_exact_content_type_no_header_tests _ (by decide) (by decide)

/-- The Scenario A request: payload with two depth-1 leaves, one string and
one number, and no headers. -/
def scenarioA : ParsedRequest :=
  { method := "POST", url := "https://api.example.com/objects", headers := [],
    data := Json.obj [("name", Json.str "Widget"), ("year", Json.num 2020)], params := [] }

/-- Scenario A with a content-type header present. -/
def scenarioACT : ParsedRequest :=
  { scenarioA with headers := [("Content-Type", "application/json")] }

/-- Claim C3: for the payload with the string leaf `name` and the numeric
leaf `year` and expected status 201, generation yields exactly 24 test
cases — 1 Positive, 2 Missing-Field, 2 Type-Mismatch, 2 Null-Value, 1
Empty-Value, 6 Security, 5 Edge and 5 Fuzz, in that interleaving — and
exactly 2 additional Header-Variant cases when a content-type header is
present, for every draw of the fuzz randomness. -/
theorem scenario_a_counts :
    ∀ oracle : Nat → List String → Option (Fin 9),
      ((generateTestCases scenarioA (Json.obj []) 201 oracle).map TestCase.type =
          ["Positive", "Negative - Missing", "Negative - Missing",
           "Negative - Type", "Negative - Type",
           "Negative - Null", "Negative - Empty", "Negative - Null",
           "Security - XSS", "Security - SQL", "Security - NoSQL", "Security - LDAP",
           "Security - Command", "Security - Path",
           "Edge - Long", "Edge - Special", "Edge - Unicode", "Edge - Large", "Edge - Negative",
           "Fuzz", "Fuzz", "Fuzz", "Fuzz", "Fuzz"] ∧
        (generateTestCases scenarioA (Json.obj []) 201 oracle).length = 24) ∧
      ((generateTestCases scenarioACT (Json.obj []) 201 oracle).map TestCase.type =
          ["Positive", "Negative - Missing", "Negative - Missing",
           "Negative - Type", "Negative - Type",
           "Negative - Null", "Negative - Empty", "Negative - Null",
           "Security - XSS", "Security - SQL", "Security - NoSQL", "Security - LDAP",
           "Security - Command", "Security - Path",
           "Edge - Long", "Edge - Special", "Edge - Unicode", "Edge - Large", "Edge - Negative",
           "Fuzz", "Fuzz", "Fuzz", "Fuzz", "Fuzz",
           "Negative - Header", "Negative - Header"] ∧
        (generateTestCases scenarioACT (Json.obj []) 201 oracle).length = 26) :=
  fun _ => ⟨⟨rfl, rfl⟩, rfl, rfl⟩

/-- A request whose payload has its only scalar leaf at depth 3. -/
def deepBase : ParsedRequest :=
  { method := "POST", url := "https://api.example.com/objects", headers := [],
    data := Json.obj [("a", Json.obj [("b", Json.obj [("c", Json.num 1)])])], params := [] }

/-- Claim C4, counterexample: for the payload whose only scalar leaf sits at
depth 3, the Missing-Field generator emits no test case whose payload is the
original with that leaf deleted (it emits only the two cases for the depth-1
and depth-2 keys), refuting the claim that every leaf path at any depth gets
exactly one deletion case. -/
theorem missing_field_skips_deep_leaf :
    ((generateMissingFieldTests deepBase).filter
        (fun tc => tc.request.data == deleteAtPath deepBase.data ["a", "b", "c"])).length = 0 ∧
      (generateMissingFieldTests deepBase).length = 2 := by decide

/-- Claim C4, amended: for a payload object that survives the JSON clone
round-trip unchanged, the Missing-Field generator emits exactly the
deletions at depth 1 and depth 2 — one case per top-level key, whose payload
is the original with that key deleted and no other change, followed by one
case per key of each object-valued top-level field, whose payload is the
original with that nested key deleted and no other change; leaf paths deeper
than 2 produce no case. -/
theorem missing_field_depth_one_two :
    ∀ (base : ParsedRequest) (fs : List (String × Json)),
      base.data = Json.obj fs →
      jsonClone (Json.obj fs) = Json.obj fs →
      (generateMissingFieldTests base).map (fun tc => tc.request.data) =
        fs.map (fun kv => deleteAtPath (Json.obj fs) [kv.1]) ++
          fs.flatMap (fun kv =>
            match kv.2 with
            | Json.obj gs => gs.map (fun nk => deleteAtPath (Json.obj fs) [kv.1, nk.1])
            | _ => []) := by
  intro base fs hdata hclone
  simp only [generateMissingFieldTests, hdata, hclone]
  rw [List.map_append]
  congr 1
  · rw [List.map_map]
    exact List.map_congr_left fun kv _ => rfl
  · rw [List.map_flatMap]
    refine List.flatMap_congr ?_
    intro kv _
    rcases kv with ⟨k0, v0⟩
    cases v0 with
    | obj gs =>
        rw [List.map_map]
        exact List.map_congr_left fun nk _ => rfl
    | null => rfl
    | undef => rfl
    | bool b => rfl
    | num n => rfl
    | str s => rfl
    | arr xs => rfl

/-- Helper payload for the C4 witness: the documented fallback payload shape,
with a depth-2 object field. -/
def wFs : List (String × Json) :=
  [("name", Json.str "Apple MacBook Pro 16"),
   ("data", Json.obj [("year", Json.num 2019), ("CPU model", Json.str "Intel Core i9")])]

/-- The request carrying `wFs` as payload. -/
def wBase : ParsedRequest :=
  { method := "POST", url := "https://api.restful-api.dev/objects",
    headers := [("Content-Type", "application/json")], data := Json.obj wFs, params := [] }

/-- Witness for the amended C4 on a two-level payload. -/
theorem missing_field_depth_one_two_witness :
    (generateMissingFieldTests wBase).map (fun tc => tc.request.data) =
      wFs.map (fun kv => deleteAtPath (Json.obj wFs) [kv.1]) ++
        wFs.flatMap (fun kv =>
          match kv.2 with
          | Json.obj gs => gs.map (fun nk => deleteAtPath (Json.obj wFs) [kv.1, nk.1])
          | _ => []) :=
  missing_field_depth_one_two wBase wFs rfl (by decide)

end ApiTester

